import Mathlib

/-!
Shallow embedding of the ptpping measurement core.

Times and magnitudes (Python floats) are modelled as rationals, subprocess
calls as explicit outcome values, and the mutable object state as explicit
state passing.  Each definition is translated from the named source
location in src/.
-/

namespace PTPPing

/-! Section: Configuration — src/ptpping/core/config.py -/

/-- PTPConfig fields used by Config.validate (config.py lines 13-18). -/
structure PTPConfig where
  domain : ℤ
  priority : ℤ
deriving DecidableEq

/-- AudioConfig fields used by Config.validate (config.py lines 21-27).
sample_rate and tone_frequency are Python ints; the durations are floats,
modelled as rationals. -/
structure AudioConfig where
  sample_rate : ℤ
  tone_frequency : ℤ
  burst_duration : ℚ
  burst_interval : ℚ
deriving DecidableEq

/-- The slice of Config that Config.validate reads (config.py lines 75-84). -/
structure Config where
  ptp : PTPConfig
  audio : AudioConfig
deriving DecidableEq

/-- Exception outcomes of Config.validate, one constructor per raise site
(config.py lines 156-178).  zeroDivisionError is the unguarded
`sample_rate % tone_frequency` with tone_frequency = 0; the others are the
explicit ValueError raises, in source order. -/
inductive ConfigError where
  | zeroDivisionError
  | toneFrequencyNotDivisor
  | nonPositiveDurations
  | durationNotBelowInterval
  | domainOutOfRange
  | priorityOutOfRange
deriving DecidableEq

/-- Config.validate (config.py lines 156-178).  Python evaluates
`sample_rate % tone_frequency` first; with tone_frequency = 0 that modulo
raises ZeroDivisionError before any ValueError check runs.  For a nonzero
divisor, Python `x % y == 0` agrees with `x % y = 0` on ℤ. -/
def validate (c : Config) : Except ConfigError Bool :=
  if c.audio.tone_frequency = 0 then
    .error .zeroDivisionError
  else if c.audio.sample_rate % c.audio.tone_frequency ≠ 0 then
    .error .toneFrequencyNotDivisor
  else if c.audio.burst_duration ≤ 0 ∨ c.audio.burst_interval ≤ 0 then
    .error .nonPositiveDurations
  else if c.audio.burst_duration ≥ c.audio.burst_interval then
    .error .durationNotBelowInterval
  else if c.ptp.domain < 0 ∨ c.ptp.domain > 255 then
    .error .domainOutOfRange
  else if c.ptp.priority < 0 ∨ c.ptp.priority > 255 then
    .error .priorityOutOfRange
  else
    .ok true

/-! Section: Reference clock — src/ptpping/core/ptp_time.py -/

/-- Outcome of one subprocess.run call: TimeoutExpired, any other raised
exception, or completion with a return code and stdout. -/
inductive CmdOutcome (α : Type) where
  | timeoutExpired
  | raisedOther
  | completed (returncode : ℤ) (stdout : α)
deriving DecidableEq

/-- One stdout line of phc_ctl, classified the way ptp_time.py lines 47-55
consumes it: without the marker substring, with the marker but an
unparsable float, or with a parsed clock time. -/
inductive PhcLine where
  | noMarker
  | unparsable
  | clockTime (t : ℚ)
deriving DecidableEq

/-- One stdout line of pmc CLOCK_CLASS output, classified the way
ptp_time.py lines 95-107 consumes it. -/
inductive ClockClassLine where
  | noMarker
  | unparsable
  | clockClass (c : ℤ)
deriving DecidableEq

/-- Environment of one PTPTimeManager call: the local clock value and the
outcomes of the three subprocess commands.  Successive time.time() reads
within a single call are modelled as one value. -/
structure ClockEnv where
  sysTime : ℚ
  pgrep : CmdOutcome Unit
  pmc : CmdOutcome (List ClockClassLine)
  phc : CmdOutcome (List PhcLine)

/-- First stdout line containing 'CLOCK_CLASS', as scanned by the loop at
ptp_time.py lines 95-107 (later lines are never reached: the loop either
returns or breaks at the first marker line). -/
def firstClockClassLine : List ClockClassLine → Option ClockClassLine
  | [] => none
  | ClockClassLine.noMarker :: rest => firstClockClassLine rest
  | l :: _ => some l

/-- PTPTimeManager._check_ptp_sync (ptp_time.py lines 68-117), returning
the value stored into self._ptp_sync.  Every failure path — pgrep timeout
or exception, pgrep nonzero, pmc timeout or exception, pmc nonzero, no
CLOCK_CLASS line, unparsable CLOCK_CLASS line — ends at false; only a
parsed clock class in {6, 7} yields true. -/
def check_ptp_sync (env : ClockEnv) : Bool :=
  match env.pgrep with
  | .timeoutExpired => false
  | .raisedOther => false
  | .completed rc _ =>
    if rc ≠ 0 then false
    else
      match env.pmc with
      | .timeoutExpired => false
      | .raisedOther => false
      | .completed rc2 lines =>
        if rc2 = 0 then
          match firstClockClassLine lines with
          | some (ClockClassLine.clockClass c) => c == 6 || c == 7
          | _ => false
        else false

/-- The mutable sync state of PTPTimeManager (ptp_time.py lines 19-20). -/
structure SyncState where
  ptp_sync : Bool
  last_sync_check : ℚ
deriving DecidableEq

/-- self._sync_check_interval (ptp_time.py line 21). -/
def sync_check_interval : ℚ := 60

/-- The refresh step shared by get_ptp_time and is_synchronized
(ptp_time.py lines 27-30 and 134-137): rerun _check_ptp_sync when the
cached status is older than the check interval. -/
def refreshSync (st : SyncState) (env : ClockEnv) : SyncState :=
  if env.sysTime - st.last_sync_check > sync_check_interval then
    ⟨check_ptp_sync env, env.sysTime⟩
  else st

/-- First stdout line containing 'clock time is', as scanned by the loop
at ptp_time.py lines 47-55. -/
def firstPhcLine : List PhcLine → Option PhcLine
  | [] => none
  | PhcLine.noMarker :: rest => firstPhcLine rest
  | l :: _ => some l

/-- PTPTimeManager.get_ptp_time (ptp_time.py lines 23-66).  Returns the
Optional[float] result and the updated sync state.  Note every fallback
path returns `some env.sysTime` (time.time()), never none. -/
def get_ptp_time (st : SyncState) (env : ClockEnv) : Option ℚ × SyncState :=
  let st' := refreshSync st env
  if st'.ptp_sync = false then (some env.sysTime, st')
  else
    match env.phc with
    | .timeoutExpired => (some env.sysTime, st')
    | .raisedOther => (some env.sysTime, st')
    | .completed rc lines =>
      if rc = 0 then
        match firstPhcLine lines with
        | some (PhcLine.clockTime t) => (some t, st')
        | _ => (some env.sysTime, st')
      else (some env.sysTime, st')

/-- PTPTimeManager.is_synchronized (ptp_time.py lines 132-138). -/
def is_synchronized (st : SyncState) (env : ClockEnv) : Bool × SyncState :=
  let st' := refreshSync st env
  (st'.ptp_sync, st')

/-- PTPTimeManager.calculate_offset (ptp_time.py lines 125-130), as a
function of the two timestamps obtained from get_timestamp. -/
def calculate_offset (ptp_time : Option ℚ) (system_time : ℚ) : Option ℚ :=
  match ptp_time with
  | some t => some (t - system_time)
  | none => none

/-! Section: Burst detection — src/ptpping/capture/audio_capture.py -/

/-- self._detection_threshold (audio_capture.py line 45). -/
def detection_threshold : ℚ := 0.1

/-- self._min_burst_gap (audio_capture.py line 46). -/
def min_burst_gap : ℚ := 0.5

/-- The burst_info dict built in _detect_burst (audio_capture.py
lines 213-220). -/
structure BurstInfo where
  ptp_time : Option ℚ
  system_time : ℚ
  detection_time : ℚ
  expected_time : ℚ
  latency_ms : ℚ
  magnitude : ℚ
deriving DecidableEq

/-- Results of the clock queries performed during one _detect_burst call:
the get_timestamp pair taken at line 205, and the separate get_ptp_time
and calculate_offset queries made inside _calculate_expected_burst_time
(lines 235 and 243). -/
structure DetectClock where
  ts_ptp_time : Option ℚ
  ts_system_time : ℚ
  calc_ptp_time : Option ℚ
  calc_offset : Option ℚ

/-- Method _calculate_expected_burst_time (audio_capture.py lines 232-251) as a
function of its two internal clock-query results and the configured
burst_interval.  Python float floor division `//` is ⌊·/·⌋. -/
def calculate_expected_burst_time (ptp_time : Option ℚ) (burst_interval : ℚ)
    (ptp_offset : Option ℚ) : Option ℚ :=
  match ptp_time with
  | none => none
  | some t =>
    let next_burst : ℚ := ((⌊t / burst_interval⌋ : ℚ) + 1) * burst_interval
    match ptp_offset with
    | some off => some (next_burst - off)
    | none => none

/-- Method _detect_burst (audio_capture.py lines 201-230).  First component: the
updated self._detected_bursts history; second component: the burst_info
record appended and sent to the sink, or none when
_calculate_expected_burst_time returned None (in that case the body under
`if expected_burst_time is not None` is skipped entirely). -/
def detect_burst (detected_bursts : List BurstInfo) (clk : DetectClock)
    (detection_time magnitude burst_interval : ℚ) :
    List BurstInfo × Option BurstInfo :=
  match calculate_expected_burst_time clk.calc_ptp_time burst_interval clk.calc_offset with
  | none => (detected_bursts, none)
  | some expected_burst_time =>
    let latency : ℚ := (detection_time - expected_burst_time) * 1000
    let burst_info : BurstInfo :=
      ⟨clk.ts_ptp_time, clk.ts_system_time, detection_time, expected_burst_time,
        latency, magnitude⟩
    (detected_bursts ++ [burst_info], some burst_info)

/-- One audio window as it reaches the threshold-and-debounce logic of
_process_audio_chunk: its normalized target-bin magnitude (line 187) and
the time.time() value taken at line 191. -/
structure Chunk where
  normalized_magnitude : ℚ
  current_time : ℚ
deriving DecidableEq

/-- The debounce state of _process_audio_chunk: self._last_burst_time
(initialized to 0 at line 49) together with the detection times accepted
so far, i.e. the _detect_burst calls made at line 195. -/
structure DetectorState where
  last_burst_time : ℚ
  accepted : List ℚ
deriving DecidableEq

/-- The threshold check and debounce of _process_audio_chunk
(audio_capture.py lines 190-196): a window above the detection threshold
is accepted only when current_time - last_burst_time > min_burst_gap, and
last_burst_time is updated only then. -/
def process_audio_chunk (st : DetectorState) (ch : Chunk) : DetectorState :=
  if ch.normalized_magnitude > detection_threshold then
    if ch.current_time - st.last_burst_time > min_burst_gap then
      ⟨ch.current_time, st.accepted ++ [ch.current_time]⟩
    else st
  else st

/-- Fresh AudioCapture debounce state (audio_capture.py lines 49-50). -/
def initDetectorState : DetectorState := ⟨0, []⟩

/-- A stream of windows fed through _process_audio_chunk in order. -/
def run_detector (chunks : List Chunk) : DetectorState :=
  chunks.foldl process_audio_chunk initDetectorState

/-- Python list slice l[i:] for an arbitrary (possibly negative) start
index, as used by get_recent_bursts. -/
def pySliceFrom (l : List BurstInfo) (i : ℤ) : List BurstInfo :=
  if i < 0 then l.drop (Int.toNat ((l.length : ℤ) + i))
  else l.drop (Int.toNat i)

/-- get_recent_bursts (audio_capture.py lines 299-301):
`self._detected_bursts[-count:] if self._detected_bursts else []`. -/
def get_recent_bursts (detected_bursts : List BurstInfo) (count : ℤ) :
    List BurstInfo :=
  if detected_bursts = [] then [] else pySliceFrom detected_bursts (-count)

/-! Section: Burst scheduling — src/ptpping/generator/audio_generator.py -/

/-- The next scheduled burst time computed by _wait_for_next_burst
(audio_generator.py line 173):
`(time_since_epoch // burst_interval + 1) * burst_interval`. -/
def next_burst (time_since_epoch burst_interval : ℚ) : ℚ :=
  ((⌊time_since_epoch / burst_interval⌋ : ℚ) + 1) * burst_interval

/-- The sleep amount computed by _wait_for_next_burst
(audio_generator.py line 174). -/
def wait_time (time_since_epoch burst_interval : ℚ) : ℚ :=
  next_burst time_since_epoch burst_interval - time_since_epoch

/-! Section: Claim-side predicates

These two definitions follow the words of the claims being checked, not
the source; each claim theorem compares them with the source-derived
definitions above. -/

/-- Follows the claim's words (C7): the configuration violates one of the
stated invariants — tone_frequency does not evenly divide sample_rate,
burst_duration or burst_interval is non-positive,
burst_duration ≥ burst_interval, or ptp.domain or ptp.priority lies
outside [0, 255]. -/
def claimedConfigViolation (c : Config) : Prop :=
  (¬ c.audio.tone_frequency ∣ c.audio.sample_rate) ∨
  c.audio.burst_duration ≤ 0 ∨ c.audio.burst_interval ≤ 0 ∨
  c.audio.burst_duration ≥ c.audio.burst_interval ∨
  c.ptp.domain < 0 ∨ c.ptp.domain > 255 ∨
  c.ptp.priority < 0 ∨ c.ptp.priority > 255

/-- Follows the claim's words (C5): a failure mode of the reference-clock
query — command timeout, other exception, nonzero exit, or a response
from which no clock time can be parsed. -/
def ptpQueryFailure (env : ClockEnv) : Prop :=
  env.phc = CmdOutcome.timeoutExpired ∨ env.phc = CmdOutcome.raisedOther ∨
  (∃ rc lines, env.phc = CmdOutcome.completed rc lines ∧
    (rc ≠ 0 ∨ ∀ t, firstPhcLine lines ≠ some (PhcLine.clockTime t)))

/-- A run of repeated successful detection cycles starting from the empty
history: each cycle is one _detect_burst call whose internal clock
queries succeed (reference time 10.3, offset 0), so each call appends one
record to self._detected_bursts. -/
def run_bursts : ℕ → List BurstInfo
  | 0 => []
  | n + 1 =>
    (detect_burst (run_bursts n) ⟨some 10.3, 10.3, some 10.3, some 0⟩ 10.301 0.5 1).1

end PTPPing

open PTPPing

theorem process_audio_chunk_not_hit (st : DetectorState) (ch : Chunk)
    (h : ¬ ch.normalized_magnitude > detection_threshold) :
    process_audio_chunk st ch = st := by
  simp [process_audio_chunk, h]

theorem foldl_quiet (l : List Chunk) (st : DetectorState)
    (h : ∀ ch ∈ l, ¬ ch.normalized_magnitude > detection_threshold) :
    l.foldl process_audio_chunk st = st := by
  induction l generalizing st with
  | nil => rfl
  | cons a l ih =>
    rw [List.foldl_cons, process_audio_chunk_not_hit st a (h a (by simp))]
    exact ih st fun ch hm => h ch (by simp [hm])

/-- C2: for every time t and every period P > 0, the scheduler's next
boundary (floor(t / P) + 1) * P is strictly greater than t and exceeds t
by at most P, including when t is an exact multiple of P. -/
theorem C2_next_boundary_bounds (t P : ℚ) (h : 0 < P) :
    t < next_burst t P ∧ next_burst t P - t ≤ P := by
  have hne : P ≠ 0 := ne_of_gt h
  constructor
  · have h2 : t / P < (⌊t / P⌋ : ℚ) + 1 := Int.lt_floor_add_one _
    calc t = t / P * P := (div_mul_cancel₀ t hne).symm
    _ < ((⌊t / P⌋ : ℚ) + 1) * P := mul_lt_mul_of_pos_right h2 h
  · have h1 : (⌊t / P⌋ : ℚ) ≤ t / P := Int.floor_le _
    have h3 : (⌊t / P⌋ : ℚ) * P ≤ t := by
      calc (⌊t / P⌋ : ℚ) * P ≤ t / P * P := mul_le_mul_of_nonneg_right h1 h.le
      _ = t := div_mul_cancel₀ t hne
    rw [next_burst, add_mul, one_mul]
    linarith

theorem C2_witness :
    (0 : ℚ) < 1 ∧ (10.3 : ℚ) < next_burst 10.3 1 ∧ next_burst 10.3 1 - 10.3 ≤ 1 :=
  ⟨by norm_num, C2_next_boundary_bounds 10.3 1 (by norm_num)⟩

/-- C4: for every candidate burst processed while no reference time is
available from the clock source (the refreshed sync flag is false, so
the source has no reference time to give and each of the clock queries
made during _detect_burst — get_timestamp at line 205, get_ptp_time at
line 235, calculate_offset at line 243 — falls back to the local clock),
a LatencyRecord is still emitted: appended to the history and handed to
the sink, with the is_synchronized value attached to the outgoing point
(the ptp_sync tag, audio_capture.py line 268) false, and with latency
computed purely from local-clock deltas (a function of the local clock
readings and detection_time only).  The absence of a reference time
never suppresses the record: the `expected_burst_time is not None` guard
at line 209 always passes, since get_ptp_time never returns None. -/
theorem C4_record_emitted_without_reference_time
    (st₁ st₂ st₃ st₄ : SyncState) (env₁ env₂ env₃ env₄ : ClockEnv)
    (history : List BurstInfo) (det mag P : ℚ)
    (h₁ : (refreshSync st₁ env₁).ptp_sync = false)
    (h₂ : (refreshSync st₂ env₂).ptp_sync = false)
    (h₃ : (refreshSync st₃ env₃).ptp_sync = false)
    (h₄ : (refreshSync st₄ env₄).ptp_sync = false) :
    (get_ptp_time st₁ env₁).1 = some env₁.sysTime ∧
    (get_ptp_time st₂ env₂).1 = some env₂.sysTime ∧
    calculate_offset (get_ptp_time st₃ env₃).1 env₃.sysTime = some 0 ∧
    (∃ r : BurstInfo,
      detect_burst history
          ⟨(get_ptp_time st₁ env₁).1, env₁.sysTime,
            (get_ptp_time st₂ env₂).1,
            calculate_offset (get_ptp_time st₃ env₃).1 env₃.sysTime⟩
          det mag P = (history ++ [r], some r) ∧
        r.latency_ms = (det - next_burst env₂.sysTime P) * 1000) ∧
    (is_synchronized st₄ env₄).1 = false := by
  have hg₁ : (get_ptp_time st₁ env₁).1 = some env₁.sysTime := by
    simp [get_ptp_time, h₁]
  have hg₂ : (get_ptp_time st₂ env₂).1 = some env₂.sysTime := by
    simp [get_ptp_time, h₂]
  have hg₃ : (get_ptp_time st₃ env₃).1 = some env₃.sysTime := by
    simp [get_ptp_time, h₃]
  refine ⟨hg₁, hg₂, ?_, ?_, ?_⟩
  · rw [hg₃]
    simp [calculate_offset]
  · refine ⟨⟨some env₁.sysTime, env₁.sysTime, det, next_burst env₂.sysTime P - 0,
      (det - (next_burst env₂.sysTime P - 0)) * 1000, mag⟩, ?_, by simp⟩
    rw [hg₁, hg₂, hg₃]
    simp [detect_burst, calculate_expected_burst_time, calculate_offset, next_burst]
  · simp [is_synchronized, h₄]

theorem C4_witness :
    (get_ptp_time ⟨false, 0⟩
        ⟨5, CmdOutcome.completed 0 (), CmdOutcome.completed 0 [],
          CmdOutcome.timeoutExpired⟩).1 = some 5 ∧
    (get_ptp_time ⟨false, 0⟩
        ⟨5, CmdOutcome.completed 0 (), CmdOutcome.completed 0 [],
          CmdOutcome.timeoutExpired⟩).1 = some 5 ∧
    calculate_offset
        (get_ptp_time ⟨false, 0⟩
          ⟨5, CmdOutcome.completed 0 (), CmdOutcome.completed 0 [],
            CmdOutcome.timeoutExpired⟩).1 5 = some 0 ∧
    (∃ r : BurstInfo,
      detect_burst []
          ⟨(get_ptp_time ⟨false, 0⟩
              ⟨5, CmdOutcome.completed 0 (), CmdOutcome.completed 0 [],
                CmdOutcome.timeoutExpired⟩).1, 5,
            (get_ptp_time ⟨false, 0⟩
              ⟨5, CmdOutcome.completed 0 (), CmdOutcome.completed 0 [],
                CmdOutcome.timeoutExpired⟩).1,
            calculate_offset
              (get_ptp_time ⟨false, 0⟩
                ⟨5, CmdOutcome.completed 0 (), CmdOutcome.completed 0 [],
                  CmdOutcome.timeoutExpired⟩).1 5⟩
          10.301 0.5 1 = ([] ++ [r], some r) ∧
        r.latency_ms = (10.301 - next_burst 5 1) * 1000) ∧
    (is_synchronized ⟨false, 0⟩
        ⟨5, CmdOutcome.completed 0 (), CmdOutcome.completed 0 [],
          CmdOutcome.timeoutExpired⟩).1 = false :=
  C4_record_emitted_without_reference_time
    ⟨false, 0⟩ ⟨false, 0⟩ ⟨false, 0⟩ ⟨false, 0⟩
    ⟨5, CmdOutcome.completed 0 (), CmdOutcome.completed 0 [],
      CmdOutcome.timeoutExpired⟩
    ⟨5, CmdOutcome.completed 0 (), CmdOutcome.completed 0 [],
      CmdOutcome.timeoutExpired⟩
    ⟨5, CmdOutcome.completed 0 (), CmdOutcome.completed 0 [],
      CmdOutcome.timeoutExpired⟩
    ⟨5, CmdOutcome.completed 0 (), CmdOutcome.completed 0 [],
      CmdOutcome.timeoutExpired⟩
    [] 10.301 0.5 1
    (by norm_num [refreshSync, sync_check_interval])
    (by norm_num [refreshSync, sync_check_interval])
    (by norm_num [refreshSync, sync_check_interval])
    (by norm_num [refreshSync, sync_check_interval])

/-- C5 counterexample: with the clock marked synchronized and the phc_ctl
query timing out (a failure mode), get_ptp_time returns the local system
time (some 5), not an absent reference time — the caller cannot tell from
the return value that no reference time was obtained. -/
theorem C5_counterexample :
    (get_ptp_time ⟨true, 0⟩
        ⟨5, CmdOutcome.completed 0 (), CmdOutcome.completed 0 [],
          CmdOutcome.timeoutExpired⟩).1 = some 5 ∧
      (get_ptp_time ⟨true, 0⟩
        ⟨5, CmdOutcome.completed 0 (), CmdOutcome.completed 0 [],
          CmdOutcome.timeoutExpired⟩).1 ≠ none := by
  constructor
  · norm_num [get_ptp_time, refreshSync, sync_check_interval]
  · norm_num [get_ptp_time, refreshSync, sync_check_interval]
    exact Option.some_ne_none 5

/-- C5 (amended): get_ptp_time never raises and always returns a time;
but instead of returning an absent reference time, unsynchronized state
and every query failure mode return the local system time itself. -/
theorem C5_fallback_is_local_time (st : SyncState) (env : ClockEnv) :
    (∃ t, (get_ptp_time st env).1 = some t) ∧
    ((refreshSync st env).ptp_sync = false →
      (get_ptp_time st env).1 = some env.sysTime) ∧
    (ptpQueryFailure env → (get_ptp_time st env).1 = some env.sysTime) := by
  refine ⟨?_, ?_, ?_⟩
  · rw [get_ptp_time]
    rcases hsync : (refreshSync st env).ptp_sync with _ | _
    · exact ⟨env.sysTime, by simp [hsync]⟩
    · rcases hphc : env.phc with _ | _ | ⟨rc, lines⟩
      · exact ⟨env.sysTime, by simp [hsync, hphc]⟩
      · exact ⟨env.sysTime, by simp [hsync, hphc]⟩
      · by_cases hrc : rc = 0
        · rcases hline : firstPhcLine lines with _ | ⟨_ | _ | t⟩
          · exact ⟨env.sysTime, by simp [hsync, hphc, hrc, hline]⟩
          · exact ⟨env.sysTime, by simp [hsync, hphc, hrc, hline]⟩
          · exact ⟨env.sysTime, by simp [hsync, hphc, hrc, hline]⟩
          · exact ⟨t, by simp [hsync, hphc, hrc, hline]⟩
        · exact ⟨env.sysTime, by simp [hsync, hphc, hrc]⟩
  · intro hsync
    simp [get_ptp_time, hsync]
  · intro hfail
    rw [get_ptp_time]
    rcases hsync : (refreshSync st env).ptp_sync with _ | _
    · simp [hsync]
    · rcases hfail with hto | hra | ⟨rc, lines, hc, hbad⟩
      · simp [hsync, hto]
      · simp [hsync, hra]
      · rcases hbad with hrc | hnoparse
        · simp [hsync, hc, hrc]
        · rcases hline : firstPhcLine lines with _ | ⟨_ | _ | t⟩
          · simp [hsync, hc, hline]
          · simp [hsync, hc, hline]
          · simp [hsync, hc, hline]
          · exact absurd hline (hnoparse t)

theorem C5_witness :
    (get_ptp_time ⟨true, 0⟩
        ⟨7, CmdOutcome.completed 0 (), CmdOutcome.completed 0 [],
          CmdOutcome.raisedOther⟩).1 = some 7 :=
  (C5_fallback_is_local_time ⟨true, 0⟩
      ⟨7, CmdOutcome.completed 0 (), CmdOutcome.completed 0 [],
        CmdOutcome.raisedOther⟩).2.2 (Or.inr (Or.inl rfl))

/-- C10: for every configuration with tone_frequency = 0, validate raises
ZeroDivisionError from the unguarded sample_rate % tone_frequency before
any of the controlled ValueError checks can run. -/
theorem C10_zero_tone_frequency_zero_division (c : Config)
    (h : c.audio.tone_frequency = 0) :
    validate c = Except.error ConfigError.zeroDivisionError := by
  rw [validate, if_pos h]

theorem C10_witness :
    validate ⟨⟨0, 0⟩, ⟨44100, 0, 0.5, 1⟩⟩ =
      Except.error ConfigError.zeroDivisionError :=
  C10_zero_tone_frequency_zero_division ⟨⟨0, 0⟩, ⟨44100, 0, 0.5, 1⟩⟩ rfl

/-- C1 (code evaluation at the claim's own scenario): with queried
reference time 10.3, period 1 and offset 0, the capture side computes the
NEXT boundary 11.0 — not 10.0, the most recently elapsed boundary the
claim states — and the record emitted for detection_time 10.301 carries
latency_ms = -699, not ≈ +301. -/
theorem C1_code_computes_next_boundary :
    calculate_expected_burst_time (some 10.3) 1 (some 0) = some 11 ∧
    (detect_burst [] ⟨some 10.3, 10.3, some 10.3, some 0⟩ 10.301 0.5 1).2 =
      some ⟨some 10.3, 10.3, 10.301, 11, -699, 0.5⟩ := by
  have hfl : ⌊(10.3 : ℚ) / 1⌋ = 10 := by norm_num [Int.floor_eq_iff]
  constructor
  · simp only [calculate_expected_burst_time, hfl]
    norm_num
  · simp only [detect_burst, calculate_expected_burst_time, hfl]
    norm_num

/-- C6: after every execution of the sync-status refresh, the
synchronized flag is true iff the daemon liveness check completed with
exit code 0 and the clock-class query completed with exit code 0 and its
first CLOCK_CLASS line parsed to clock class 6 or 7; daemon absence,
timeouts, exceptions, nonzero exits, a missing or unparsable CLOCK_CLASS
line all yield false. -/
theorem C6_sync_flag_iff (env : ClockEnv) :
    check_ptp_sync env = true ↔
      (∃ u, env.pgrep = CmdOutcome.completed 0 u) ∧
      (∃ lines c, env.pmc = CmdOutcome.completed 0 lines ∧
        firstClockClassLine lines = some (ClockClassLine.clockClass c) ∧
        (c = 6 ∨ c = 7)) := by
  obtain ⟨sysT, pg, pmc, phc⟩ := env
  rcases pg with _ | _ | ⟨rc, u⟩
  · simp [check_ptp_sync]
  · simp [check_ptp_sync]
  · by_cases hrc : rc = 0
    · subst hrc
      rcases pmc with _ | _ | ⟨rc2, lines⟩
      · simp [check_ptp_sync]
      · simp [check_ptp_sync]
      · by_cases hrc2 : rc2 = 0
        · subst hrc2
          rcases hline : firstClockClassLine lines with _ | ⟨_ | _ | c⟩
          · simp [check_ptp_sync, hline]
          · simp [check_ptp_sync, hline]
          · simp [check_ptp_sync, hline]
          · simp [check_ptp_sync, hline]
        · simp [check_ptp_sync, hrc2]
    · simp [check_ptp_sync, hrc]

/-- C9 (amended): the emitted record is independent of the mutable
history, and the emitted expected_time and latency_ms are pure functions
of reference_time, period, detection_time AND the offset produced by the
additional calculate_offset clock query made inside
_calculate_expected_burst_time — the same four inputs always yield the
same emitted fields. -/
theorem C9_determinism_given_offset (clk : DetectClock) (det mag P : ℚ)
    (h1 h2 : List BurstInfo) :
    (detect_burst h1 clk det mag P).2 = (detect_burst h2 clk det mag P).2 ∧
    (∀ rt off, clk.calc_ptp_time = some rt → clk.calc_offset = some off →
      (detect_burst h1 clk det mag P).2 =
        some ⟨clk.ts_ptp_time, clk.ts_system_time, det,
          ((⌊rt / P⌋ : ℚ) + 1) * P - off,
          (det - (((⌊rt / P⌋ : ℚ) + 1) * P - off)) * 1000, mag⟩) := by
  constructor
  · rcases hce : calculate_expected_burst_time clk.calc_ptp_time P clk.calc_offset
      with _ | e
    · simp [detect_burst, hce]
    · simp [detect_burst, hce]
  · intro rt off hrt hoff
    simp [detect_burst, calculate_expected_burst_time, hrt, hoff]

theorem C9_witness :
    (detect_burst [] ⟨some 10.3, 10.3, some 10.3, some 0⟩ 10.301 0.5 1).2 =
      some ⟨some 10.3, 10.3, 10.301,
        ((⌊(10.3 : ℚ) / 1⌋ : ℚ) + 1) * 1 - 0,
        (10.301 - (((⌊(10.3 : ℚ) / 1⌋ : ℚ) + 1) * 1 - 0)) * 1000, 0.5⟩ :=
  (C9_determinism_given_offset ⟨some 10.3, 10.3, some 10.3, some 0⟩
      10.301 0.5 1 [] []).2 10.3 0 rfl rfl

/-- C9 counterexample: two runs with identical reference_time (10.3),
period (1) and detection_time (10.301) but different results of the
additional offset query (0 vs 1) emit different records (latency_ms -699
vs 301), so the computation is not a pure function of the three inputs
the claim names. -/
theorem C9_counterexample :
    (detect_burst [] ⟨some 10.3, 10.3, some 10.3, some 0⟩ 10.301 0.5 1).2 ≠
      (detect_burst [] ⟨some 10.3, 10.3, some 10.3, some 1⟩ 10.301 0.5 1).2 := by
  intro h
  simp only [detect_burst, calculate_expected_burst_time, Option.some.injEq,
    BurstInfo.mk.injEq] at h
  norm_num at h

theorem run_bursts_length (n : ℕ) : (run_bursts n).length = n := by
  induction n with
  | zero => rfl
  | succ n ih =>
    rw [run_bursts]
    simp [detect_burst, calculate_expected_burst_time, ih]

/-- C8 (amended): the internal history is unbounded — every successful
detection cycle appends one record and nothing evicts — while
boundedness holds only at the query interface: get_recent_bursts with
count ≥ 1 returns the count most recent records (a suffix of the
history), never more than count. -/
theorem C8_history_unbounded_query_bounded (l : List BurstInfo) (count : ℤ)
    (h : 1 ≤ count) :
    (get_recent_bursts l count).length ≤ count.toNat ∧
    get_recent_bursts l count = l.drop (l.length - count.toNat) ∧
    (∀ n : ℕ, (run_bursts n).length = n) := by
  have hdrop : get_recent_bursts l count = l.drop (l.length - count.toNat) := by
    rw [get_recent_bursts]
    by_cases hl : l = []
    · simp [hl]
    · rw [if_neg hl, pySliceFrom, if_pos (by omega : -count < 0)]
      congr 1
      omega
  refine ⟨?_, hdrop, run_bursts_length⟩
  rw [hdrop]
  simp only [List.length_drop]
  omega

theorem C8_witness :
    (1 : ℤ) ≤ 2 ∧
    ((get_recent_bursts [⟨none, 0, 0, 0, 0, 0⟩, ⟨none, 1, 1, 1, 1, 1⟩,
        ⟨none, 2, 2, 2, 2, 2⟩] 2).length ≤ (2 : ℤ).toNat ∧
      get_recent_bursts [⟨none, 0, 0, 0, 0, 0⟩, ⟨none, 1, 1, 1, 1, 1⟩,
        ⟨none, 2, 2, 2, 2, 2⟩] 2 =
        List.drop ([⟨none, 0, 0, 0, 0, 0⟩, ⟨none, 1, 1, 1, 1, 1⟩,
          (⟨none, 2, 2, 2, 2, 2⟩ : BurstInfo)].length - (2 : ℤ).toNat)
          [⟨none, 0, 0, 0, 0, 0⟩, ⟨none, 1, 1, 1, 1, 1⟩, ⟨none, 2, 2, 2, 2, 2⟩] ∧
      (∀ n : ℕ, (run_bursts n).length = n)) :=
  ⟨by norm_num,
    C8_history_unbounded_query_bounded
      [⟨none, 0, 0, 0, 0, 0⟩, ⟨none, 1, 1, 1, 1, 1⟩, ⟨none, 2, 2, 2, 2, 2⟩] 2
      (by norm_num)⟩

/-- C7 (amended): for every configuration with tone_frequency ≠ 0 (with
tone_frequency = 0 validate raises ZeroDivisionError regardless of the
stated invariants, see C10), validate raises an error iff the
configuration violates one of the stated invariants, and succeeds
returning true iff it violates none. -/
theorem C7_validate_iff_violation (c : Config)
    (htf : c.audio.tone_frequency ≠ 0) :
    ((∃ e, validate c = Except.error e) ↔ claimedConfigViolation c) ∧
    (validate c = Except.ok true ↔ ¬ claimedConfigViolation c) := by
  have hdvd : c.audio.tone_frequency ∣ c.audio.sample_rate ↔
      c.audio.sample_rate % c.audio.tone_frequency = 0 :=
    Int.dvd_iff_emod_eq_zero
  rw [validate, if_neg htf]
  split_ifs with hc1 hc2 hc3 hc4 hc5
  · have hv : claimedConfigViolation c := Or.inl fun hd => hc1 (hdvd.mp hd)
    exact ⟨iff_of_true ⟨_, rfl⟩ hv, iff_of_false (by simp) (not_not_intro hv)⟩
  · have hv : claimedConfigViolation c := by
      rcases hc2 with hbd | hbi
      · exact Or.inr (Or.inl hbd)
      · exact Or.inr (Or.inr (Or.inl hbi))
    exact ⟨iff_of_true ⟨_, rfl⟩ hv, iff_of_false (by simp) (not_not_intro hv)⟩
  · have hv : claimedConfigViolation c :=
      Or.inr (Or.inr (Or.inr (Or.inl hc3)))
    exact ⟨iff_of_true ⟨_, rfl⟩ hv, iff_of_false (by simp) (not_not_intro hv)⟩
  · have hv : claimedConfigViolation c := by
      rcases hc4 with hd | hd
      · exact Or.inr (Or.inr (Or.inr (Or.inr (Or.inl hd))))
      · exact Or.inr (Or.inr (Or.inr (Or.inr (Or.inr (Or.inl hd)))))
    exact ⟨iff_of_true ⟨_, rfl⟩ hv, iff_of_false (by simp) (not_not_intro hv)⟩
  · have hv : claimedConfigViolation c := by
      rcases hc5 with hp | hp
      · exact Or.inr (Or.inr (Or.inr (Or.inr (Or.inr (Or.inr (Or.inl hp))))))
      · exact Or.inr (Or.inr (Or.inr (Or.inr (Or.inr (Or.inr (Or.inr hp))))))
    exact ⟨iff_of_true ⟨_, rfl⟩ hv, iff_of_false (by simp) (not_not_intro hv)⟩
  · have hnv : ¬ claimedConfigViolation c := by
      rintro (hv | hv | hv | hv | hv | hv | hv | hv)
      · exact hv (hdvd.mpr (not_not.mp hc1))
      · exact hc2 (Or.inl hv)
      · exact hc2 (Or.inr hv)
      · exact hc3 hv
      · exact hc4 (Or.inl hv)
      · exact hc4 (Or.inr hv)
      · exact hc5 (Or.inl hv)
      · exact hc5 (Or.inr hv)
    refine ⟨iff_of_false ?_ hnv, iff_of_true rfl hnv⟩
    rintro ⟨e, he⟩
    simp at he

theorem C7_witness :
    (⟨⟨1, 1⟩, ⟨44100, 441, 0.5, 1⟩⟩ : Config).audio.tone_frequency ≠ 0 ∧
    validate ⟨⟨1, 1⟩, ⟨44100, 441, 0.5, 1⟩⟩ = Except.ok true :=
  ⟨by norm_num,
    (C7_validate_iff_violation ⟨⟨1, 1⟩, ⟨44100, 441, 0.5, 1⟩⟩ (by norm_num)).2.mpr
      (by
        rintro (hv | hv | hv | hv | hv | hv | hv | hv)
        · exact hv ⟨100, by norm_num⟩
        all_goals norm_num at hv)⟩

/-- C7 counterexample: the configuration with sample_rate = 0 and
tone_frequency = 0 (every other field within the stated bounds; 0 evenly
divides 0) violates none of the stated invariants, yet validate raises
(ZeroDivisionError): rejection is not equivalent to violating a stated
invariant. -/
theorem C7_counterexample :
    validate ⟨⟨0, 0⟩, ⟨0, 0, 0.5, 1⟩⟩ =
      Except.error ConfigError.zeroDivisionError ∧
    ¬ claimedConfigViolation ⟨⟨0, 0⟩, ⟨0, 0, 0.5, 1⟩⟩ := by
  constructor
  · rfl
  · rintro (hv | hv | hv | hv | hv | hv | hv | hv)
    · exact hv (dvd_refl 0)
    all_goals norm_num at hv

/-- C8 counterexample: no fixed capacity N bounds the retained history —
for every N a run of N + 1 successful detection cycles retains N + 1
records — refuting the claimed bounded-capacity FIFO invariant. -/
theorem C8_counterexample :
    ¬ ∃ N : ℕ, ∀ n : ℕ, (run_bursts n).length ≤ N := by
  rintro ⟨N, hN⟩
  have h := hN (N + 1)
  rw [run_bursts_length] at h
  omega

/-- C3: debounce — for a stream whose windows contain exactly two raw
hits (windows whose normalized target-bin magnitude exceeds the detection
threshold), the first arriving later than min_burst_gap after the fresh
detector's zero-initialized last_burst_time: a gap strictly below
min_burst_gap between the two hits yields exactly one accepted
CandidateBurst and a gap strictly above yields exactly two; moreover a
raw hit is accepted exactly when detection_time - last_accepted_time >
min_burst_gap, and last_accepted_time is updated only on acceptance. -/
theorem C3_debounce (l1 l2 l3 : List Chunk) (c1 c2 : Chunk)
    (hq1 : ∀ ch ∈ l1, ¬ ch.normalized_magnitude > detection_threshold)
    (hq2 : ∀ ch ∈ l2, ¬ ch.normalized_magnitude > detection_threshold)
    (hq3 : ∀ ch ∈ l3, ¬ ch.normalized_magnitude > detection_threshold)
    (h1 : c1.normalized_magnitude > detection_threshold)
    (h2 : c2.normalized_magnitude > detection_threshold)
    (hstart : c1.current_time > min_burst_gap) :
    (c2.current_time - c1.current_time < min_burst_gap →
      (run_detector (l1 ++ c1 :: l2 ++ c2 :: l3)).accepted = [c1.current_time]) ∧
    (c2.current_time - c1.current_time > min_burst_gap →
      (run_detector (l1 ++ c1 :: l2 ++ c2 :: l3)).accepted =
        [c1.current_time, c2.current_time]) ∧
    (∀ st ch,
      (ch.normalized_magnitude > detection_threshold ∧
          ch.current_time - st.last_burst_time > min_burst_gap →
        process_audio_chunk st ch =
          ⟨ch.current_time, st.accepted ++ [ch.current_time]⟩) ∧
      (¬ (ch.normalized_magnitude > detection_threshold ∧
          ch.current_time - st.last_burst_time > min_burst_gap) →
        process_audio_chunk st ch = st)) := by
  have hstep1 : process_audio_chunk initDetectorState c1 =
      ⟨c1.current_time, [c1.current_time]⟩ := by
    simp [process_audio_chunk, initDetectorState, h1, hstart]
  have hchain :
      run_detector (l1 ++ c1 :: l2 ++ c2 :: l3) =
        List.foldl process_audio_chunk
          (process_audio_chunk ⟨c1.current_time, [c1.current_time]⟩ c2) l3 := by
    rw [run_detector, List.foldl_append, List.foldl_append,
      foldl_quiet l1 _ hq1]
    simp only [List.foldl_cons]
    rw [hstep1, foldl_quiet l2 _ hq2]
  refine ⟨?_, ?_, ?_⟩
  · intro hlt
    have hnot : ¬ (c2.current_time -
        (⟨c1.current_time, [c1.current_time]⟩ : DetectorState).last_burst_time >
          min_burst_gap) := by
      simp only [gt_iff_lt, not_lt]
      linarith
    rw [hchain, process_audio_chunk, if_pos h2, if_neg hnot,
      foldl_quiet l3 _ hq3]
  · intro hgt
    have hyes : c2.current_time -
        (⟨c1.current_time, [c1.current_time]⟩ : DetectorState).last_burst_time >
          min_burst_gap := hgt
    rw [hchain, process_audio_chunk, if_pos h2, if_pos hyes,
      foldl_quiet l3 _ hq3]
    rfl
  · intro st ch
    constructor
    · rintro ⟨ha, hb⟩
      rw [process_audio_chunk, if_pos ha, if_pos hb]
    · intro hn
      rw [process_audio_chunk]
      split_ifs with hA hB
      · exact absurd ⟨hA, hB⟩ hn
      · rfl
      · rfl

theorem C3_witness :
    (run_detector [⟨0.2, 1⟩, ⟨0.2, 1.2⟩]).accepted = [1] :=
  (C3_debounce [] [] [] ⟨0.2, 1⟩ ⟨0.2, 1.2⟩ (by simp) (by simp) (by simp)
      (by norm_num [detection_threshold]) (by norm_num [detection_threshold])
      (by norm_num [min_burst_gap])).1
    (by norm_num [min_burst_gap])
